import Mathlib

/-!
Verification of the crane-monitoring demo (Flask app `app.py` plus the
prescriptive-analysis adapter `gemini_integration.py`).

The embedding is shallow: Python dict-backed state becomes Lean structures,
SQLite tables become Lean lists, every HTTP handler becomes a pure function
from the explicit application state (plus the request data and the
nondeterministic inputs it consumes: fresh uuids, clock timestamps, random
draws, the external engine's answer) to the new state and the response.
Python floats are modelled as rationals.
-/

/-! ### `gemini_integration.py`: the prescriptive engine adapter -/

/-- Python truthiness of an optional string (`if not API_KEY`, `if status_filter`):
`None` and the empty string are falsy. -/
def pyTruthy : Option String → Bool
  | none => false
  | some s => s ≠ ""

/-- The `role_guidance` object inside a prescription. -/
structure RoleGuidance where
  owner : String
  maintenance_lead : String
  technician : String
  deriving Repr, DecidableEq

/-- The prescription object of an analysis result (the fields the fallback
populates; engine responses carry the same shape). -/
structure Prescription where
  action : String
  rationale : String
  role_guidance : RoleGuidance
  deriving Repr, DecidableEq

/-- A structured analysis result as consumed by the app. Fields are optional
because the app reads them with `dict.get(key, default)`: an engine answer is
an arbitrary parsed JSON object and may lack any of them. -/
structure Analysis where
  summary : Option String := none
  type : Option String := none
  urgency_score : Option Int := none
  prescription : Option Prescription := none
  deriving Repr, DecidableEq

/-- The telemetry fields `gemini_integration.py` inspects. The fallback reads
`telemetry_data.get('vibration_mm_s', 0)`, so the field is optional. -/
structure TelemetryData where
  vibration_mm_s : Option ℚ := none
  deriving Repr, DecidableEq

/-- Outcome of the call to the external engine (`self.model.generate_content`
plus the markdown cleanup and `json.loads`): either a parsed analysis object,
or any failure (transport error, timeout, unparseable text). -/
inductive EngineOutcome where
  | ok (a : Analysis)
  | failure
  deriving Repr, DecidableEq

/-- `PrescriptiveEngine._mock_response`: the deterministic fallback. -/
def mock_response (telemetry_data : TelemetryData) : Analysis :=
  { summary := some ("Simulated Analysis (API Key Missing or Error)")
    type := some (if telemetry_data.vibration_mm_s.getD 0 > 4 then "Warning" else "Optimal")
    urgency_score := some (if telemetry_data.vibration_mm_s.getD 0 > 4 then 5 else 1)
    prescription := some
      { action := "Check Sensor Calibration"
        rationale := "Simulated rationale based on heuristic."
        role_guidance :=
          { owner := "Monitor for trends."
            maintenance_lead := "Verify spare parts inventory."
            technician := "Inspect sensor mounting." } } }

/-- `PrescriptiveEngine.analyze_telemetry`: returns the mock when no API key is
configured, the parsed engine answer on success, and the mock again when the
engine call or the JSON parse raises. -/
def analyze_telemetry (apiKey : Option String) (engineCall : EngineOutcome)
    (telemetry_data : TelemetryData) : Analysis :=
  if pyTruthy apiKey = false then mock_response telemetry_data
  else
    match engineCall with
    | .ok a => a
    | .failure => mock_response telemetry_data

/-! ### `app.py`: persisted state and handlers

SQLite tables become Lean lists (insertion order; the audit sequence id is the
list position). Each handler takes the state plus its request data and the
nondeterministic inputs it consumes (fresh uuid, `datetime.now()` timestamp,
engine outcome) and returns the new state and its response payload. -/

/-- A row of the `events` table. -/
structure Event where
  id : String
  timestamp : String
  component_id : String
  type : String
  severity : ℚ
  urgency_score : Int
  raw_telemetry : String
  prescription : Option Prescription
  status : String
  resolution_notes : String
  owner_decision : Option String := none
  deriving Repr, DecidableEq

/-- A row of the `audit_log` table (the autoincrement id is the list
position, so it is not a field). -/
structure AuditEntry where
  timestamp : String
  role : String
  action : String
  event_id : Option String
  details : String
  deriving Repr, DecidableEq

/-- A row of the `part_requests` table. -/
structure PartRequest where
  id : String
  part_name : String
  requester_role : String
  status : String
  timestamp : String
  deriving Repr, DecidableEq

/-- The whole mutable application state: the three SQLite tables plus the
in-process `InventoryManager.stock` dict (an association list). -/
structure AppState where
  events : List Event
  audit_log : List AuditEntry
  part_requests : List PartRequest
  stock : List (String × Int)
  deriving Repr, DecidableEq

/-- The process-start state: empty tables, the seeded
`InventoryManager.__init__` stock. -/
def initState : AppState :=
  { events := []
    audit_log := []
    part_requests := []
    stock := [("Main Bearing (B-54)", 1), ("Hoist Motor", 2), ("Hydraulic Filter", 12)] }

/-- `InventoryManager.update_stock`: add `change` to the named part if it is a
tracked key, reporting whether a key matched; untracked names are a no-op. -/
def update_stock (stock : List (String × Int)) (part_name : String) (change : Int) :
    List (String × Int) × Bool :=
  if (stock.lookup part_name).isSome then
    (stock.map (fun p => if p.1 = part_name then (p.1, p.2 + change) else p), true)
  else (stock, false)

/-- The `/api/analyze` handler, after the engine call: given the serialized
request telemetry, the analysis result, the fresh uuid and the clock reading,
insert the event row and its audit row. Returns the created event (the 201
response body). -/
def analyze (st : AppState) (raw_data : String) (analysis : Analysis)
    (event_uuid now : String) : AppState × Event :=
  let event : Event :=
    { id := event_uuid
      timestamp := now
      component_id := "CRANE-01"
      type := analysis.type.getD "Info"
      severity := (analysis.urgency_score.getD 1 : ℚ) / 10
      urgency_score := analysis.urgency_score.getD 1
      raw_telemetry := raw_data
      prescription := analysis.prescription
      status := "active"
      resolution_notes := "" }
  let entry : AuditEntry :=
    { timestamp := now
      role := "Technician"
      action := "Ran Diagnostic Scan"
      event_id := some event.id
      details := "Detected: " ++ event.type }
  ({ st with events := st.events ++ [event], audit_log := st.audit_log ++ [entry] }, event)

/-- The `/api/events/<event_id>/resolve` handler: UPDATE every row whose id
matches (zero rows when the id is unknown), append one audit row, answer
success unconditionally. -/
def resolve_event (st : AppState) (event_id : String) (notes : Option String)
    (now : String) : AppState × String :=
  let notes := notes.getD "Resolved via Dashboard"
  let events := st.events.map (fun e =>
    if e.id = event_id then { e with status := "resolved", resolution_notes := notes } else e)
  let entry : AuditEntry :=
    { timestamp := now
      role := "Technician"
      action := "Resolved Issue"
      event_id := some event_id
      details := notes }
  ({ st with events := events, audit_log := st.audit_log ++ [entry] }, "success")

/-- The `/api/verify_fix` handler: append one audit row, mutate nothing else. -/
def verify_fix (st : AppState) (event_id : Option String) (checks : List String)
    (now : String) : AppState × String :=
  let entry : AuditEntry :=
    { timestamp := now
      role := "Technician"
      action := "Protocol Verification"
      event_id := event_id
      details := "Verified: " ++ String.intercalate ", " checks }
  ({ st with audit_log := st.audit_log ++ [entry] }, "success")

/-- The `/api/decisions` handler: append one audit row, then UPDATE the
`owner_decision` of every event whose id matches (an SQL `id = NULL` never
matches, hence the comparison against `some e.id`). -/
def log_decision (st : AppState) (role decision : Option String)
    (event_id : Option String) (now : String) : AppState × String :=
  let role := role.getD "Owner"
  let decision := decision.getD "Unknown Decision"
  let entry : AuditEntry :=
    { timestamp := now
      role := role
      action := "Executive Decision"
      event_id := event_id
      details := decision }
  let events := st.events.map (fun e =>
    if some e.id = event_id then { e with owner_decision := some decision } else e)
  ({ st with events := events, audit_log := st.audit_log ++ [entry] }, "success")

/-- The `/api/log_action` handler: append one audit row. -/
def log_action (st : AppState) (role action details : Option String)
    (event_id : Option String) (now : String) : AppState × String :=
  let entry : AuditEntry :=
    { timestamp := now
      role := role.getD "System"
      action := action.getD "Activity"
      event_id := event_id
      details := details.getD "" }
  ({ st with audit_log := st.audit_log ++ [entry] }, "success")

/-- The `/api/parts/request` handler: insert a pending request with a fresh
uuid and append one audit row. Returns the new request id. -/
def request_part (st : AppState) (part : String) (role : Option String)
    (req_uuid now : String) : AppState × String :=
  let role := role.getD "Maintenance Lead"
  let req : PartRequest :=
    { id := req_uuid
      part_name := part
      requester_role := role
      status := "pending"
      timestamp := now }
  let entry : AuditEntry :=
    { timestamp := now
      role := role
      action := "Requested Part"
      event_id := some req_uuid
      details := "Requested restock: " ++ part }
  ({ st with part_requests := st.part_requests ++ [req], audit_log := st.audit_log ++ [entry] },
    req_uuid)

/-- Response of the approval handler: 404 when the request id is unknown,
otherwise the post-increment stock level of the part (`dict.get`: `none` when
the part is untracked). -/
inductive ApproveResult where
  | notFound
  | success (new_stock : Option Int)
  deriving Repr, DecidableEq

/-- The `/api/parts/approve/<req_id>` handler: fetch the first matching
request (404 and no write when absent), mark it approved, add 5 units to the
tracked stock of its part name, append one audit row, and answer with the
post-increment stock. -/
def approve_part (st : AppState) (req_id : String) (now : String) :
    AppState × ApproveResult :=
  match st.part_requests.find? (fun r => r.id = req_id) with
  | none => (st, .notFound)
  | some req =>
    let part_requests := st.part_requests.map (fun r =>
      if r.id = req_id then { r with status := "approved" } else r)
    let stock := (update_stock st.stock req.part_name 5).1
    let entry : AuditEntry :=
      { timestamp := now
        role := "Owner"
        action := "Approved Purchase"
        event_id := some req_id
        details := "Approved order for " ++ req.part_name ++ ". Stock updated." }
    ({ st with
        part_requests := part_requests
        stock := stock
        audit_log := st.audit_log ++ [entry] },
      .success (stock.lookup req.part_name))

/-- One API call with all its inputs, for quantifying over operation
sequences. -/
inductive Op where
  | opAnalyze (raw_data : String) (analysis : Analysis) (event_uuid now : String)
  | opResolve (event_id : String) (notes : Option String) (now : String)
  | opVerify (event_id : Option String) (checks : List String) (now : String)
  | opDecision (role decision event_id : Option String) (now : String)
  | opLogAction (role action details event_id : Option String) (now : String)
  | opRequestPart (part : String) (role : Option String) (req_uuid now : String)
  | opApprove (req_id now : String)

/-- Apply one API call to the state. -/
def step (st : AppState) : Op → AppState
  | .opAnalyze raw a u now => (analyze st raw a u now).1
  | .opResolve eid notes now => (resolve_event st eid notes now).1
  | .opVerify eid checks now => (verify_fix st eid checks now).1
  | .opDecision role dec eid now => (log_decision st role dec eid now).1
  | .opLogAction role act det eid now => (log_action st role act det eid now).1
  | .opRequestPart part role u now => (request_part st part role u now).1
  | .opApprove rid now => (approve_part st rid now).1

/-- Run a sequence of API calls from a state. -/
def run (st : AppState) (ops : List Op) : AppState :=
  ops.foldl step st

/-! ### `SensorSimulator`: telemetry generation

One iteration of the `generate_data` loop body is a pure function of the
current state and of the random draws and clock reading it consumes. -/

/-- The `self.telemetry` dict (fields in `__init__` order). -/
structure Telem where
  vibration_mm_s : ℚ
  temperature_c : ℚ
  load_cycles : Int
  motor_current_a : ℚ
  brake_health_pct : ℚ
  motor_hours : ℚ
  oil_pressure_bar : ℚ
  gearbox_oil_temp_c : ℚ
  hydraulic_pressure_bar : ℚ
  voltage_imbalance_pct : ℚ
  deriving Repr, DecidableEq

/-- The `self.component_wear` dict. -/
structure Wear where
  main_bearing : ℚ
  hoist_motor : ℚ
  cable_tension : ℚ
  deriving Repr, DecidableEq

/-- One history entry: the telemetry copy, merged wear, and timestamp. -/
structure Snapshot where
  telem : Telem
  wear : Wear
  timestamp : String
  deriving Repr, DecidableEq

/-- The simulator's mutable state. -/
structure SimState where
  telemetry : Telem
  component_wear : Wear
  history : List Snapshot
  deriving Repr, DecidableEq

/-- The random draws and clock reading one loop iteration consumes:
`vib`, `temp`, `cur`, `oil`, `gear`, `hyd`, `volt` are the `random.uniform`
results; `loadInc` is the boolean `random.random() > 0.8`; `brakeR`, `bearR`,
`hoistR` are bare `random.random()` results; `ts` is `datetime.now()`. -/
structure Draw where
  vib : ℚ
  temp : ℚ
  cur : ℚ
  loadInc : Bool
  brakeR : ℚ
  oil : ℚ
  gear : ℚ
  hyd : ℚ
  volt : ℚ
  bearR : ℚ
  hoistR : ℚ
  ts : String
  deriving Repr, DecidableEq

/-- The ranges `random.uniform(a, b)` and `random.random()` guarantee for
each draw. -/
abbrev ValidDraw (d : Draw) : Prop :=
  0.5 ≤ d.vib ∧ d.vib ≤ 5.0 ∧ 20.0 ≤ d.temp ∧ d.temp ≤ 95.0 ∧
  10.0 ≤ d.cur ∧ d.cur ≤ 60.0 ∧ 0 ≤ d.brakeR ∧ d.brakeR < 1 ∧
  4.8 ≤ d.oil ∧ d.oil ≤ 5.2 ∧ 40.0 ≤ d.gear ∧ d.gear ≤ 60.0 ∧
  115.0 ≤ d.hyd ∧ d.hyd ≤ 125.0 ∧ 0.0 ≤ d.volt ∧ d.volt ≤ 1.5 ∧
  0 ≤ d.bearR ∧ d.bearR < 1 ∧ 0 ≤ d.hoistR ∧ d.hoistR < 1

/-- Python's `round(x, k)` on the exact rational value: round to `k` decimal
digits (ties are immaterial to the proved bounds). -/
def roundTo (x : ℚ) (k : Nat) : ℚ := ((round (x * 10 ^ k) : ℤ) : ℚ) / 10 ^ k

/-- The telemetry updates of one `generate_data` iteration. -/
def tickTelem (t : Telem) (d : Draw) : Telem :=
  { vibration_mm_s := roundTo d.vib 2
    temperature_c := roundTo d.temp 1
    load_cycles := t.load_cycles + (if d.loadInc then 1 else 0)
    motor_current_a := roundTo d.cur 1
    brake_health_pct := roundTo (max 0 (t.brake_health_pct - d.brakeR * 0.01)) 2
    motor_hours := roundTo (t.motor_hours + 0.01) 2
    oil_pressure_bar := roundTo d.oil 2
    gearbox_oil_temp_c := roundTo d.gear 1
    hydraulic_pressure_bar := roundTo d.hyd 1
    voltage_imbalance_pct := roundTo d.volt 2 }

/-- The component-wear updates of one iteration (`cable_tension` is never
touched). -/
def tickWear (w : Wear) (d : Draw) : Wear :=
  { main_bearing := min 1.0 (w.main_bearing + 0.0001 * d.bearR)
    hoist_motor := min 1.0 (w.hoist_motor + 0.00005 * d.hoistR)
    cable_tension := w.cable_tension }

/-- The snapshot one iteration appends: updated telemetry merged with
updated wear, plus the timestamp. -/
def tickSnap (s : SimState) (d : Draw) : Snapshot :=
  { telem := tickTelem s.telemetry d
    wear := tickWear s.component_wear d
    timestamp := d.ts }

/-- One full `generate_data` iteration: update the dicts, append the
snapshot, and `pop(0)` when the history holds more than 50 entries. -/
def tick (s : SimState) (d : Draw) : SimState :=
  let snap := tickSnap s d
  let history := s.history ++ [snap]
  { telemetry := snap.telem
    component_wear := snap.wear
    history := if history.length > 50 then history.tail else history }

/-- The simulator state built by `SensorSimulator.__init__`. -/
def simInit : SimState :=
  { telemetry :=
      { vibration_mm_s := 0.0
        temperature_c := 0.0
        load_cycles := 10000
        motor_current_a := 0.0
        brake_health_pct := 98.5
        motor_hours := 1240.5
        oil_pressure_bar := 5.0
        gearbox_oil_temp_c := 45.0
        hydraulic_pressure_bar := 120.0
        voltage_imbalance_pct := 0.5 }
    component_wear :=
      { main_bearing := 0.05
        hoist_motor := 0.12
        cable_tension := 0.02 }
    history := [] }

/-- Run a sequence of iterations. -/
def ticks (s : SimState) (ds : List Draw) : SimState := ds.foldl tick s

/-- The chronological sequence of snapshots a run generates (oldest first). -/
def allSnaps (s : SimState) (ds : List Draw) : List Snapshot :=
  match ds with
  | [] => []
  | d :: ds => tickSnap s d :: allSnaps (tick s d) ds

/-- The last `n` elements of a list, in order. -/
def rtake (n : Nat) (l : List α) : List α := l.drop (l.length - n)

/-- States the simulator can actually be in: reached from `__init__` by
iterations whose draws respect the `random` ranges. -/
def SimReachable (s : SimState) : Prop :=
  ∃ ds, (∀ d ∈ ds, ValidDraw d) ∧ s = ticks simInit ds

/-- All wear fractions at most 1 (the simulator's cap invariant). -/
abbrev WearInv (s : SimState) : Prop :=
  s.component_wear.main_bearing ≤ 1.0 ∧ s.component_wear.hoist_motor ≤ 1.0 ∧
    s.component_wear.cable_tension ≤ 1.0

/-- Conclusion of claim C7 for one iteration from state `s` under draw `d`:
every stateless channel lands in its declared range, wear is monotone and
capped, and the load-cycle counter does not decrease. -/
abbrev TickProps (s : SimState) (d : Draw) : Prop :=
  (0.5 ≤ (tick s d).telemetry.vibration_mm_s ∧ (tick s d).telemetry.vibration_mm_s ≤ 5.0) ∧
  (20.0 ≤ (tick s d).telemetry.temperature_c ∧ (tick s d).telemetry.temperature_c ≤ 95.0) ∧
  (10.0 ≤ (tick s d).telemetry.motor_current_a ∧ (tick s d).telemetry.motor_current_a ≤ 60.0) ∧
  (4.8 ≤ (tick s d).telemetry.oil_pressure_bar ∧ (tick s d).telemetry.oil_pressure_bar ≤ 5.2) ∧
  (40.0 ≤ (tick s d).telemetry.gearbox_oil_temp_c ∧
    (tick s d).telemetry.gearbox_oil_temp_c ≤ 60.0) ∧
  (115.0 ≤ (tick s d).telemetry.hydraulic_pressure_bar ∧
    (tick s d).telemetry.hydraulic_pressure_bar ≤ 125.0) ∧
  (0.0 ≤ (tick s d).telemetry.voltage_imbalance_pct ∧
    (tick s d).telemetry.voltage_imbalance_pct ≤ 1.5) ∧
  (s.component_wear.main_bearing ≤ (tick s d).component_wear.main_bearing ∧
    s.component_wear.hoist_motor ≤ (tick s d).component_wear.hoist_motor ∧
    s.component_wear.cable_tension ≤ (tick s d).component_wear.cable_tension) ∧
  WearInv (tick s d) ∧
  s.telemetry.load_cycles ≤ (tick s d).telemetry.load_cycles

/-! ### Listing endpoints (`/api/events`, `/api/audit_log`) -/

/-- `ORDER BY timestamp DESC` on events: `a` may precede `b` when `b`'s
timestamp is at most `a`'s. -/
def evDesc (a b : Event) : Prop := b.timestamp ≤ a.timestamp

/-- `ORDER BY timestamp DESC` on audit entries. -/
def auDesc (a b : AuditEntry) : Prop := b.timestamp ≤ a.timestamp

instance : DecidableRel evDesc :=
  fun a b => inferInstanceAs (Decidable (b.timestamp ≤ a.timestamp))

instance : DecidableRel auDesc :=
  fun a b => inferInstanceAs (Decidable (b.timestamp ≤ a.timestamp))

instance : IsTotal Event evDesc := ⟨fun a b => le_total b.timestamp a.timestamp⟩

instance : IsTrans Event evDesc := ⟨fun _ _ _ hab hbc => le_trans hbc hab⟩

instance : IsTotal AuditEntry auDesc := ⟨fun a b => le_total b.timestamp a.timestamp⟩

instance : IsTrans AuditEntry auDesc := ⟨fun _ _ _ hab hbc => le_trans hbc hab⟩

/-- The `/api/events` handler: optional exact-status `WHERE` (skipped for an
absent or empty parameter, both falsy), `ORDER BY timestamp DESC LIMIT 20`. -/
def listEvents (evts : List Event) (status_filter : Option String) : List Event :=
  let base :=
    if pyTruthy status_filter then evts.filter (fun e => some e.status = status_filter)
    else evts
  (base.insertionSort evDesc).take 20

/-- The `/api/audit_log` handler: optional exact-role `WHERE`,
`ORDER BY timestamp DESC LIMIT 50`. -/
def listAudit (logs : List AuditEntry) (role_filter : Option String) : List AuditEntry :=
  let base :=
    if pyTruthy role_filter then logs.filter (fun a => some a.role = role_filter)
    else logs
  (base.insertionSort auDesc).take 50

/-- Strictly-descending-by-timestamp, as claim C9 states it. -/
abbrev StrictDescEv (l : List Event) : Prop :=
  l.Pairwise (fun a b => b.timestamp < a.timestamp)

/-- Conclusion of claim C1: the event the analyze handler creates has
severity `u / 10`, status active, is appended to the events table, and
exactly one audit row is appended, linked to the new event's id, with action
Ran Diagnostic Scan. -/
abbrev AnalyzeProps (st : AppState) (raw_data : String) (a : Analysis) (u : Int)
    (event_uuid now : String) : Prop :=
  (analyze st raw_data a event_uuid now).2.severity = (u : ℚ) / 10 ∧
  (analyze st raw_data a event_uuid now).2.status = "active" ∧
  (analyze st raw_data a event_uuid now).1.events =
    st.events ++ [(analyze st raw_data a event_uuid now).2] ∧
  (analyze st raw_data a event_uuid now).1.audit_log = st.audit_log ++
    [{ timestamp := now
       role := "Technician"
       action := "Ran Diagnostic Scan"
       event_id := some ((analyze st raw_data a event_uuid now).2.id)
       details := "Detected: " ++ (analyze st raw_data a event_uuid now).2.type }]

/-- Every stored event is either active or resolved. -/
def StatusInv (s : AppState) : Prop :=
  ∀ e ∈ s.events, e.status = "active" ∨ e.status = "resolved"

/-! ### Claim theorems -/

/-- Helper: how one API call transforms the stored statuses: analyze appends
one active status, resolve sets matching rows to resolved, every other call
leaves all statuses unchanged. -/
theorem step_statuses (s : AppState) (op : Op) :
    (step s op).events.map Event.status =
      match op with
      | Op.opAnalyze _ _ _ _ => s.events.map Event.status ++ ["active"]
      | Op.opResolve eid _ _ =>
          s.events.map (fun e => if e.id = eid then "resolved" else e.status)
      | _ => s.events.map Event.status := by
  cases op with
  | opAnalyze raw a u now => simp [step, analyze]
  | opResolve eid notes now =>
    simp only [step, resolve_event, List.map_map]
    exact List.map_congr_left (fun e _ => by by_cases h : e.id = eid <;> simp [h])
  | opVerify eid checks now => rfl
  | opDecision role dec eid now =>
    simp only [step, log_decision, List.map_map]
    exact List.map_congr_left (fun e _ => by by_cases h : some e.id = eid <;> simp [h])
  | opLogAction role act det eid now => rfl
  | opRequestPart part role u now => rfl
  | opApprove rid now =>
    simp only [step, approve_part]
    rcases hf : s.part_requests.find? (fun r => r.id = rid) with _ | req <;> rw [hf]

/-- Helper: one API call preserves the status invariant. -/
theorem statusInv_step (s : AppState) (op : Op) (h : StatusInv s) :
    StatusInv (step s op) := by
  intro e he
  have hmap := step_statuses s op
  have hmem : e.status ∈ (step s op).events.map Event.status := List.mem_map_of_mem _ he
  rw [hmap] at hmem
  cases op with
  | opAnalyze raw a u now =>
    rcases List.mem_append.mp hmem with hm | hm
    · obtain ⟨e₀, he₀, hst⟩ := List.mem_map.mp hm
      rw [← hst]; exact h e₀ he₀
    · left; simpa using hm
  | opResolve eid notes now =>
    obtain ⟨e₀, he₀, hst⟩ := List.mem_map.mp hmem
    by_cases hid : e₀.id = eid
    · right; rw [← hst]; simp [hid]
    · rw [← hst]; simp only [hid, if_false]; exact h e₀ he₀
  | opVerify eid checks now =>
    obtain ⟨e₀, he₀, hst⟩ := List.mem_map.mp hmem
    rw [← hst]; exact h e₀ he₀
  | opDecision role dec eid now =>
    obtain ⟨e₀, he₀, hst⟩ := List.mem_map.mp hmem
    rw [← hst]; exact h e₀ he₀
  | opLogAction role act det eid now =>
    obtain ⟨e₀, he₀, hst⟩ := List.mem_map.mp hmem
    rw [← hst]; exact h e₀ he₀
  | opRequestPart part role u now =>
    obtain ⟨e₀, he₀, hst⟩ := List.mem_map.mp hmem
    rw [← hst]; exact h e₀ he₀
  | opApprove rid now =>
    obtain ⟨e₀, he₀, hst⟩ := List.mem_map.mp hmem
    rw [← hst]; exact h e₀ he₀

/-- Helper: the status invariant holds along every run. -/
theorem statusInv_run (ops : List Op) (s : AppState) (h : StatusInv s) :
    StatusInv (run s ops) := by
  induction ops generalizing s with
  | nil => exact h
  | cons op ops ih => exact ih (step s op) (statusInv_step s op h)

/-- C3: along every reachable operation sequence, every stored event's
status is active or resolved; a created event starts active; resolve is the
only call that changes statuses (setting matched rows to resolved); and no
call moves a row out of resolved. -/
theorem event_status_state_machine (ops : List Op) (op : Op) :
    StatusInv (run initState ops) ∧
    ((step (run initState ops) op).events.map Event.status =
      match op with
      | Op.opAnalyze _ _ _ _ => (run initState ops).events.map Event.status ++ ["active"]
      | Op.opResolve eid _ _ =>
          (run initState ops).events.map (fun e => if e.id = eid then "resolved" else e.status)
      | _ => (run initState ops).events.map Event.status) ∧
    (∀ i : Nat, ((run initState ops).events.map Event.status)[i]? = some ("resolved") →
      ((step (run initState ops) op).events.map Event.status)[i]? = some ("resolved")) := by
  refine ⟨statusInv_run ops initState (fun e he => by simp [initState] at he),
    step_statuses _ op, ?_⟩
  intro i hres
  cases op with
  | opAnalyze raw a u now =>
    have hmap' : (step (run initState ops) (Op.opAnalyze raw a u now)).events.map Event.status
        = (run initState ops).events.map Event.status ++ ["active"] := step_statuses _ _
    have hlt : i < ((run initState ops).events.map Event.status).length := by
      rcases List.getElem?_eq_some.mp hres with ⟨h, _⟩
      exact h
    rw [hmap', List.getElem?_append_left hlt]
    exact hres
  | opResolve eid notes now =>
    have hmap' : (step (run initState ops) (Op.opResolve eid notes now)).events.map Event.status
        = (run initState ops).events.map
            (fun e => if e.id = eid then "resolved" else e.status) := step_statuses _ _
    rw [hmap', List.getElem?_map]
    rw [List.getElem?_map] at hres
    rcases hx : (run initState ops).events[i]? with _ | e
    · rw [hx] at hres; simp at hres
    · rw [hx] at hres
      have he : e.status = "resolved" := by simpa using hres
      by_cases hid : e.id = eid <;> simp [hid, he]
  | opVerify eid checks now =>
    have hmap' : (step (run initState ops) (Op.opVerify eid checks now)).events.map Event.status
        = (run initState ops).events.map Event.status := step_statuses _ _
    rw [hmap']; exact hres
  | opDecision role dec eid now =>
    have hmap' : (step (run initState ops) (Op.opDecision role dec eid now)).events.map
        Event.status = (run initState ops).events.map Event.status := step_statuses _ _
    rw [hmap']; exact hres
  | opLogAction role act det eid now =>
    have hmap' : (step (run initState ops) (Op.opLogAction role act det eid now)).events.map
        Event.status = (run initState ops).events.map Event.status := step_statuses _ _
    rw [hmap']; exact hres
  | opRequestPart part role u now =>
    have hmap' : (step (run initState ops) (Op.opRequestPart part role u now)).events.map
        Event.status = (run initState ops).events.map Event.status := step_statuses _ _
    rw [hmap']; exact hres
  | opApprove rid now =>
    have hmap' : (step (run initState ops) (Op.opApprove rid now)).events.map
        Event.status = (run initState ops).events.map Event.status := step_statuses _ _
    rw [hmap']; exact hres

/-- Witness for C3 at a concrete input: one analyze then one resolve, with a
second resolve as the probed operation. -/
theorem event_status_state_machine_witness :
    StatusInv (run initState [Op.opAnalyze ("vib") (Analysis.mk none none (some 7) none)
      ("e1") ("t1"), Op.opResolve ("e1") none ("t2")]) ∧
    ((step (run initState [Op.opAnalyze ("vib") (Analysis.mk none none (some 7) none)
        ("e1") ("t1"), Op.opResolve ("e1") none ("t2")])
        (Op.opResolve ("e1") none ("t3"))).events.map Event.status =
      (run initState [Op.opAnalyze ("vib") (Analysis.mk none none (some 7) none)
        ("e1") ("t1"), Op.opResolve ("e1") none ("t2")]).events.map
        (fun e => if e.id = "e1" then "resolved" else e.status)) ∧
    (∀ i : Nat, ((run initState [Op.opAnalyze ("vib") (Analysis.mk none none (some 7) none)
        ("e1") ("t1"), Op.opResolve ("e1") none ("t2")]).events.map
          Event.status)[i]? = some ("resolved") →
      ((step (run initState [Op.opAnalyze ("vib") (Analysis.mk none none (some 7) none)
        ("e1") ("t1"), Op.opResolve ("e1") none ("t2")])
        (Op.opResolve ("e1") none ("t3"))).events.map
          Event.status)[i]? = some ("resolved")) :=
  event_status_state_machine
    [Op.opAnalyze ("vib") (Analysis.mk none none (some 7) none) ("e1") ("t1"),
      Op.opResolve ("e1") none ("t2")]
    (Op.opResolve ("e1") none ("t3"))

/-- Helper: `List.lookup` on a cons cell, as an if-then-else. -/
theorem lookup_cons_ite {α β : Type} [BEq α] (a k : α) (b : β) (es : List (α × β)) :
    List.lookup a ((k, b) :: es) = if a == k then some b else List.lookup a es := by
  simp only [List.lookup]
  cases h : a == k <;> simp [h]

/-- Helper: adjusting a tracked part adds exactly the delta to its entry. -/
theorem lookup_update_stock (stock : List (String × Int)) (name : String) (c n : Int)
    (h : stock.lookup name = some n) :
    (update_stock stock name c).1.lookup name = some (n + c) := by
  have hmap : (stock.map fun p => if p.1 = name then (p.1, p.2 + c) else p).lookup name
      = some (n + c) := by
    induction stock with
    | nil => simp at h
    | cons p tl ih =>
      obtain ⟨k, v⟩ := p
      by_cases hp : name = k
      · simp [lookup_cons_ite, beq_iff_eq, hp] at h ⊢
        omega
      · have hp' : ¬ k = name := fun hc => hp hc.symm
        simp [lookup_cons_ite, beq_iff_eq, hp, hp'] at h ⊢
        exact ih h
  simp only [update_stock, h, Option.isSome_some, if_true]
  exact hmap

/-- Helper: adjusting an untracked part is a no-op that reports failure. -/
theorem update_stock_untracked (stock : List (String × Int)) (name : String) (c : Int)
    (h : stock.lookup name = none) : update_stock stock name c = (stock, false) := by
  simp [update_stock, h]

/-- Helper: the approval status update keeps ids, so the request lookup
commutes with it. -/
theorem find?_map_approve (l : List PartRequest) (req_id : String) :
    (l.map fun r => if r.id = req_id then { r with status := "approved" } else r).find?
        (fun r => r.id = req_id) =
      (l.find? (fun r => r.id = req_id)).map
        (fun r => if r.id = req_id then { r with status := "approved" } else r) := by
  induction l with
  | nil => rfl
  | cons r tl ih =>
    by_cases hr : r.id = req_id
    · simp [List.find?, hr]
    · simp [List.find?, hr, ih]

/-- Helper: one approval of a found request for a tracked part adds 5 units
and keeps the request findable (now marked approved). -/
theorem approve_part_tracked (st : AppState) (req_id now : String)
    (req : PartRequest) (n : Int)
    (hfind : st.part_requests.find? (fun r => r.id = req_id) = some req)
    (hlook : st.stock.lookup req.part_name = some n) :
    (approve_part st req_id now).1.stock.lookup req.part_name = some (n + 5) ∧
    (approve_part st req_id now).1.part_requests.find? (fun r => r.id = req_id) =
      some (if req.id = req_id then { req with status := "approved" } else req) := by
  have h5 := lookup_update_stock st.stock req.part_name 5 n hlook
  simp only [approve_part, hfind]
  exact ⟨h5, by rw [find?_map_approve, hfind]; rfl⟩

/-- C4: approving an unknown request id answers NotFound and changes nothing;
approving a request for a tracked part adds exactly 5 units and answers with
the post-increment total; approving a request for an untracked part still
answers success with every stock count unchanged. -/
theorem approve_part_spec (st : AppState) (req_id now : String) :
    ((∀ r ∈ st.part_requests, r.id ≠ req_id) →
      approve_part st req_id now = (st, ApproveResult.notFound)) ∧
    (∀ req n, st.part_requests.find? (fun r => r.id = req_id) = some req →
      st.stock.lookup req.part_name = some n →
      (approve_part st req_id now).1.stock.lookup req.part_name = some (n + 5) ∧
      (approve_part st req_id now).2 = ApproveResult.success (some (n + 5))) ∧
    (∀ req, st.part_requests.find? (fun r => r.id = req_id) = some req →
      st.stock.lookup req.part_name = none →
      (approve_part st req_id now).1.stock = st.stock ∧
      (approve_part st req_id now).2 = ApproveResult.success none) := by
  refine ⟨?_, ?_, ?_⟩
  · intro h
    have hnone : st.part_requests.find? (fun r => r.id = req_id) = none :=
      List.find?_eq_none.mpr (fun r hr => by simpa using h r hr)
    simp [approve_part, hnone]
  · intro req n hfind hlook
    have h5 := lookup_update_stock st.stock req.part_name 5 n hlook
    simp only [approve_part, hfind]
    exact ⟨h5, by rw [h5]⟩
  · intro req hfind hlook
    have hus := update_stock_untracked st.stock req.part_name 5 hlook
    refine ⟨?_, ?_⟩ <;> simp [approve_part, hfind, hus, hlook]

/-- Witness for C4 at a concrete input: a stored request for the tracked
Hydraulic Filter (stock 12) is approved, yielding 17. -/
theorem approve_part_spec_witness :
    ((request_part initState ("Hydraulic Filter") none ("r1") ("t1")).1.part_requests.find?
        (fun r => r.id = "r1") =
      some (PartRequest.mk ("r1") ("Hydraulic Filter") ("Maintenance Lead")
        ("pending") ("t1")) ∧
      (request_part initState ("Hydraulic Filter") none ("r1") ("t1")).1.stock.lookup
        (PartRequest.mk ("r1") ("Hydraulic Filter") ("Maintenance Lead")
          ("pending") ("t1")).part_name = some 12) ∧
    ((approve_part (request_part initState ("Hydraulic Filter") none ("r1") ("t1")).1
        ("r1") ("t2")).1.stock.lookup
      (PartRequest.mk ("r1") ("Hydraulic Filter") ("Maintenance Lead")
        ("pending") ("t1")).part_name = some (12 + 5) ∧
     (approve_part (request_part initState ("Hydraulic Filter") none ("r1") ("t1")).1
        ("r1") ("t2")).2 = ApproveResult.success (some (12 + 5))) :=
  ⟨⟨by decide, by decide⟩,
    (approve_part_spec (request_part initState ("Hydraulic Filter") none ("r1") ("t1")).1
      ("r1") ("t2")).2.1
      (PartRequest.mk ("r1") ("Hydraulic Filter") ("Maintenance Lead") ("pending") ("t1"))
      12 (by decide) (by decide)⟩

/-- C5: approving the same request twice re-applies the restock: the tracked
part gains 10 units in total (approval is not idempotent on inventory). -/
theorem approve_part_replay (st : AppState) (req_id now1 now2 : String)
    (req : PartRequest) (n : Int)
    (hfind : st.part_requests.find? (fun r => r.id = req_id) = some req)
    (hlook : st.stock.lookup req.part_name = some n) :
    (approve_part (approve_part st req_id now1).1 req_id now2).1.stock.lookup
      req.part_name = some (n + 10) := by
  have hid : (if req.id = req_id then { req with status := "approved" } else req).part_name
      = req.part_name := by
    by_cases h : req.id = req_id <;> simp [h]
  have h1 := approve_part_tracked st req_id now1 req n hfind hlook
  have h2 := approve_part_tracked (approve_part st req_id now1).1 req_id now2
    (if req.id = req_id then { req with status := "approved" } else req) (n + 5)
    h1.2 (by rw [hid]; exact h1.1)
  have := h2.1
  rw [hid] at this
  rw [show n + 5 + 5 = n + 10 by omega] at this
  exact this

/-- Witness for C5 at a concrete input: two approvals of the same request
take the Hydraulic Filter stock from 12 to 22. -/
theorem approve_part_replay_witness :
    ((request_part initState ("Hydraulic Filter") none ("r1") ("t1")).1.part_requests.find?
        (fun r => r.id = "r1") =
      some (PartRequest.mk ("r1") ("Hydraulic Filter") ("Maintenance Lead")
        ("pending") ("t1")) ∧
      (request_part initState ("Hydraulic Filter") none ("r1") ("t1")).1.stock.lookup
        (PartRequest.mk ("r1") ("Hydraulic Filter") ("Maintenance Lead")
          ("pending") ("t1")).part_name = some 12) ∧
    (approve_part (approve_part
        (request_part initState ("Hydraulic Filter") none ("r1") ("t1")).1
        ("r1") ("t2")).1 ("r1") ("t3")).1.stock.lookup
      (PartRequest.mk ("r1") ("Hydraulic Filter") ("Maintenance Lead")
        ("pending") ("t1")).part_name = some (12 + 10) :=
  ⟨⟨by decide, by decide⟩,
    approve_part_replay (request_part initState ("Hydraulic Filter") none ("r1") ("t1")).1
      ("r1") ("t2") ("t3")
      (PartRequest.mk ("r1") ("Hydraulic Filter") ("Maintenance Lead") ("pending") ("t1"))
      12 (by decide) (by decide)⟩

/-- Helper: rounding is monotone on rationals. -/
theorem round_mono_q {x y : ℚ} (h : x ≤ y) : round x ≤ round y := by
  rw [round_eq, round_eq]
  exact Int.floor_le_floor (by linarith)

/-- Helper: rounding to `k` digits cannot exceed a bound on the `10 ^ k`
grid. -/
theorem roundTo_le {x : ℚ} (k : Nat) {n : ℤ} (h : x ≤ (n : ℚ) / 10 ^ k) :
    roundTo x k ≤ (n : ℚ) / 10 ^ k := by
  have hp : (0 : ℚ) < 10 ^ k := by positivity
  have h1 : x * 10 ^ k ≤ (n : ℚ) := (le_div_iff₀ hp).mp h
  have h2 : round (x * 10 ^ k) ≤ n := by
    have hr := round_mono_q h1
    rwa [round_intCast] at hr
  unfold roundTo
  exact (div_le_div_iff_of_pos_right hp).mpr (by exact_mod_cast h2)

/-- Helper: rounding to `k` digits cannot undershoot a bound on the `10 ^ k`
grid. -/
theorem le_roundTo {x : ℚ} (k : Nat) {m : ℤ} (h : (m : ℚ) / 10 ^ k ≤ x) :
    (m : ℚ) / 10 ^ k ≤ roundTo x k := by
  have hp : (0 : ℚ) < 10 ^ k := by positivity
  have h1 : (m : ℚ) ≤ x * 10 ^ k := (div_le_iff₀ hp).mp h
  have h2 : m ≤ round (x * 10 ^ k) := by
    have hr := round_mono_q h1
    rwa [round_intCast] at hr
  unfold roundTo
  exact (div_le_div_iff_of_pos_right hp).mpr (by exact_mod_cast h2)

/-- Helper: rounding keeps a value inside an interval whose endpoints lie on
the rounding grid. -/
theorem roundTo_bounds {x lo hi : ℚ} (k : Nat) (m n : ℤ)
    (hm : lo = (m : ℚ) / 10 ^ k) (hn : hi = (n : ℚ) / 10 ^ k)
    (h1 : lo ≤ x) (h2 : x ≤ hi) : lo ≤ roundTo x k ∧ roundTo x k ≤ hi := by
  subst hm hn
  exact ⟨le_roundTo k h1, roundTo_le k h2⟩

/-- Helper: the wear cap invariant holds at process start. -/
theorem wearInv_init : WearInv simInit := by
  refine ⟨?_, ?_, ?_⟩ <;> norm_num [simInit]

/-- Helper: one iteration preserves the wear cap invariant. -/
theorem wearInv_tick (s : SimState) (d : Draw) (h : WearInv s) :
    WearInv (tick s d) := by
  obtain ⟨-, -, h3⟩ := h
  exact ⟨min_le_left _ _, min_le_left _ _, h3⟩

/-- Helper: the wear cap invariant holds along every run. -/
theorem wearInv_ticks (ds : List Draw) (s : SimState) (h : WearInv s) :
    WearInv (ticks s ds) := by
  induction ds generalizing s with
  | nil => exact h
  | cons d ds ih => exact ih (tick s d) (wearInv_tick s d h)

/-- Helper: every reachable simulator state satisfies the wear cap. -/
theorem wearInv_reachable (s : SimState) (h : SimReachable s) : WearInv s := by
  obtain ⟨ds, -, rfl⟩ := h
  exact wearInv_ticks ds simInit wearInv_init

/-- C7: from any reachable simulator state, one tick under in-range random
draws keeps every stateless channel inside its declared range, never
decreases any wear fraction or the load-cycle count, and keeps all wear
fractions at most 1. -/
theorem simulator_tick_invariants (s : SimState) (d : Draw)
    (hs : SimReachable s) (hd : ValidDraw d) : TickProps s d := by
  obtain ⟨hv1, hv2, ht1, ht2, hc1, hc2, hbr1, hbr2, ho1, ho2, hg1, hg2,
    hh1, hh2, hvo1, hvo2, hb1, hb2, hho1, hho2⟩ := hd
  obtain ⟨hw1, hw2, hw3⟩ := wearInv_reachable s hs
  refine ⟨?_, ?_, ?_, ?_, ?_, ?_, ?_, ?_, ?_, ?_⟩
  · exact roundTo_bounds 2 50 500 (by norm_num) (by norm_num) hv1 hv2
  · exact roundTo_bounds 1 200 950 (by norm_num) (by norm_num) ht1 ht2
  · exact roundTo_bounds 1 100 600 (by norm_num) (by norm_num) hc1 hc2
  · exact roundTo_bounds 2 480 520 (by norm_num) (by norm_num) ho1 ho2
  · exact roundTo_bounds 1 400 600 (by norm_num) (by norm_num) hg1 hg2
  · exact roundTo_bounds 1 1150 1250 (by norm_num) (by norm_num) hh1 hh2
  · exact roundTo_bounds 2 0 150 (by norm_num) (by norm_num) hvo1 hvo2
  · refine ⟨le_min hw1 ?_, le_min hw2 ?_, le_refl _⟩
    · nlinarith
    · nlinarith
  · exact wearInv_tick s d ⟨hw1, hw2, hw3⟩
  · show s.telemetry.load_cycles ≤ s.telemetry.load_cycles + _
    split <;> omega

/-- Witness for C7 at a concrete input: the initial state with mid-range
draws. -/
theorem simulator_tick_invariants_witness :
    SimReachable simInit ∧
    ValidDraw (Draw.mk 3 50 30 true (1/2) 5 50 120 1 (1/2) (1/2) ("ts")) ∧
    TickProps simInit (Draw.mk 3 50 30 true (1/2) 5 50 120 1 (1/2) (1/2) ("ts")) :=
  ⟨⟨[], by simp, rfl⟩, by norm_num [ValidDraw],
    simulator_tick_invariants simInit
      (Draw.mk 3 50 30 true (1/2) 5 50 120 1 (1/2) (1/2) ("ts"))
      ⟨[], by simp, rfl⟩ (by norm_num [ValidDraw])⟩

/-- Helper: the last `n` elements, via reverse and take. -/
theorem rtake_eq {α : Type} (n : Nat) (l : List α) :
    rtake n l = (l.reverse.take n).reverse := by
  unfold rtake
  rw [List.reverse_take, List.reverse_reverse, List.length_reverse]

/-- Helper: keeping the last `n` before appending is absorbed by keeping the
last `n` afterwards. -/
theorem rtake_append_rtake {α : Type} (n : Nat) (l A : List α) :
    rtake n (rtake n l ++ A) = rtake n (l ++ A) := by
  rw [rtake_eq n l, rtake_eq, rtake_eq, List.reverse_append, List.reverse_append,
    List.reverse_reverse]
  rw [List.take_append_eq_append_take, List.take_append_eq_append_take]
  rw [List.take_take, Nat.min_eq_left (Nat.sub_le _ _)]

/-- Helper: a list short enough is untouched by `rtake`. -/
theorem rtake_of_le {α : Type} (n : Nat) (l : List α) (h : l.length ≤ n) :
    rtake n l = l := by
  unfold rtake
  rw [Nat.sub_eq_zero_of_le h, List.drop_zero]

/-- Helper: `rtake` keeps at most `n` elements. -/
theorem length_rtake_le {α : Type} (n : Nat) (l : List α) : (rtake n l).length ≤ n := by
  unfold rtake
  rw [List.length_drop]
  omega

/-- Helper: one iteration keeps the last 50 of the appended history. -/
theorem tick_history (s : SimState) (d : Draw) (h : s.history.length ≤ 50) :
    (tick s d).history = rtake 50 (s.history ++ [tickSnap s d]) := by
  show (if (s.history ++ [tickSnap s d]).length > 50 then (s.history ++ [tickSnap s d]).tail
      else s.history ++ [tickSnap s d]) = _
  by_cases hc : (s.history ++ [tickSnap s d]).length > 50
  · rw [if_pos hc]
    have h50 : s.history.length = 50 := by simp at hc ⊢; omega
    have h1 : (s.history ++ [tickSnap s d]).length - 50 = 1 := by simp [h50]
    unfold rtake
    rw [h1, List.drop_one]
  · rw [if_neg hc]
    exact (rtake_of_le _ _ (by omega)).symm

/-- Helper: one iteration keeps the history at no more than 50 entries. -/
theorem tick_history_length (s : SimState) (d : Draw) (h : s.history.length ≤ 50) :
    (tick s d).history.length ≤ 50 := by
  rw [tick_history s d h]
  exact length_rtake_le _ _

/-- Helper: a run's final history is the last 50 of the initial history plus
everything generated, in order. -/
theorem ticks_history (ds : List Draw) : ∀ s : SimState, s.history.length ≤ 50 →
    (ticks s ds).history = rtake 50 (s.history ++ allSnaps s ds) := by
  induction ds with
  | nil =>
    intro s h
    show s.history = rtake 50 (s.history ++ allSnaps s [])
    rw [show allSnaps s [] = [] from rfl, List.append_nil, rtake_of_le _ _ h]
  | cons d ds ih =>
    intro s h
    show (ticks (tick s d) ds).history = _
    rw [ih (tick s d) (tick_history_length s d h), tick_history s d h,
      rtake_append_rtake]
    congr 1
    simp [allSnaps]

/-- Helper: a run generates one snapshot per tick. -/
theorem allSnaps_length (ds : List Draw) : ∀ s, (allSnaps s ds).length = ds.length := by
  induction ds with
  | nil => intro s; rfl
  | cons d ds ih => intro s; simp [allSnaps, ih]

/-- C8: after any run from process start the history holds at most 50
snapshots, namely exactly the last 50 generated in oldest-to-newest order;
after 51 ticks the first snapshot has been evicted. -/
theorem history_buffer_fifo (ds : List Draw) :
    (ticks simInit ds).history.length ≤ 50 ∧
    (ticks simInit ds).history = rtake 50 (allSnaps simInit ds) ∧
    (ds.length = 51 → (ticks simInit ds).history = (allSnaps simInit ds).drop 1) := by
  have hmain := ticks_history ds simInit (by simp [simInit])
  have hnil : simInit.history ++ allSnaps simInit ds = allSnaps simInit ds := by
    simp [simInit]
  rw [hnil] at hmain
  refine ⟨?_, hmain, ?_⟩
  · rw [hmain]
    exact length_rtake_le _ _
  · intro h51
    rw [hmain]
    unfold rtake
    rw [allSnaps_length ds simInit, h51]

/-- Witness for C8 at a concrete input: 51 identical-draw ticks evict the
first snapshot. -/
theorem history_buffer_fifo_witness :
    (List.replicate 51 (Draw.mk 3 50 30 true (1/2) 5 50 120 1 (1/2) (1/2) ("ts"))).length
      = 51 ∧
    (ticks simInit (List.replicate 51
        (Draw.mk 3 50 30 true (1/2) 5 50 120 1 (1/2) (1/2) ("ts")))).history =
      (allSnaps simInit (List.replicate 51
        (Draw.mk 3 50 30 true (1/2) 5 50 120 1 (1/2) (1/2) ("ts")))).drop 1 :=
  ⟨by simp,
    (history_buffer_fifo (List.replicate 51
      (Draw.mk 3 50 30 true (1/2) 5 50 120 1 (1/2) (1/2) ("ts")))).2.2 (by simp)⟩

/-- C9 counterexample: with two stored events sharing a timestamp the events
listing is not strictly descending by timestamp (the SQL `ORDER BY ... DESC`
admits ties), refuting the claim as stated at a concrete input. -/
theorem listEvents_strict_desc_counterexample :
    ¬ StrictDescEv (listEvents
      [Event.mk ("a") ("t") ("CRANE-01") ("Info") 0 1 ("x") none ("active") ("") none,
        Event.mk ("b") ("t") ("CRANE-01") ("Info") 0 1 ("x") none ("active") ("") none]
      none) := by
  intro h
  have hl : listEvents
      [Event.mk ("a") ("t") ("CRANE-01") ("Info") 0 1 ("x") none ("active") ("") none,
        Event.mk ("b") ("t") ("CRANE-01") ("Info") 0 1 ("x") none ("active") ("") none]
      none =
      [Event.mk ("a") ("t") ("CRANE-01") ("Info") 0 1 ("x") none ("active") ("") none,
        Event.mk ("b") ("t") ("CRANE-01") ("Info") 0 1 ("x") none ("active") ("") none] := by
    simp [listEvents, pyTruthy, List.insertionSort, List.orderedInsert, evDesc]
  rw [hl] at h
  have hlt := (List.pairwise_cons.mp h).1 _ (List.mem_cons_self _ _)
  exact lt_irrefl ("t" : String) hlt

/-- C9 (amended): the events listing returns at most 20 rows in
non-increasing (descending with ties) timestamp order, filtered by exact
status when a non-empty filter is given; the audit listing returns at most 50
rows in non-increasing timestamp order, filtered by exact role. -/
theorem listing_bounds_and_order (evts : List Event) (logs : List AuditEntry)
    (status_filter role_filter : Option String) :
    (listEvents evts status_filter).length ≤ 20 ∧
    (listEvents evts status_filter).Pairwise (fun a b => b.timestamp ≤ a.timestamp) ∧
    (∀ e ∈ listEvents evts status_filter, pyTruthy status_filter = true →
      some e.status = status_filter) ∧
    (listAudit logs role_filter).length ≤ 50 ∧
    (listAudit logs role_filter).Pairwise (fun a b => b.timestamp ≤ a.timestamp) ∧
    (∀ a ∈ listAudit logs role_filter, pyTruthy role_filter = true →
      some a.role = role_filter) := by
  refine ⟨List.length_take_le _ _, ?_, ?_, List.length_take_le _ _, ?_, ?_⟩
  · exact (List.sorted_insertionSort evDesc _).sublist (List.take_sublist _ _)
  · intro e he htr
    simp only [listEvents, htr, if_true] at he
    have hmem : e ∈ (evts.filter (fun e => some e.status = status_filter)).insertionSort
        evDesc := List.mem_of_mem_take he
    have hbase := (List.perm_insertionSort evDesc _).mem_iff.mp hmem
    exact of_decide_eq_true (List.mem_filter.mp hbase).2
  · exact (List.sorted_insertionSort auDesc _).sublist (List.take_sublist _ _)
  · intro a ha htr
    simp only [listAudit, htr, if_true] at ha
    have hmem : a ∈ (logs.filter (fun a => some a.role = role_filter)).insertionSort
        auDesc := List.mem_of_mem_take ha
    have hbase := (List.perm_insertionSort auDesc _).mem_iff.mp hmem
    exact of_decide_eq_true (List.mem_filter.mp hbase).2

/-- Witness for C9 (amended) at a concrete input: one stored event and one
audit entry, no filters. -/
theorem listing_bounds_and_order_witness :
    (listEvents [Event.mk ("a") ("t") ("CRANE-01") ("Info") 0 1 ("x") none
        ("active") ("") none] none).length ≤ 20 ∧
    (listEvents [Event.mk ("a") ("t") ("CRANE-01") ("Info") 0 1 ("x") none
        ("active") ("") none] none).Pairwise (fun a b => b.timestamp ≤ a.timestamp) ∧
    (∀ e ∈ listEvents [Event.mk ("a") ("t") ("CRANE-01") ("Info") 0 1 ("x") none
        ("active") ("") none] none, pyTruthy none = true → some e.status = none) ∧
    (listAudit [AuditEntry.mk ("t") ("Owner") ("Executive Decision") none ("d")]
        none).length ≤ 50 ∧
    (listAudit [AuditEntry.mk ("t") ("Owner") ("Executive Decision") none ("d")]
        none).Pairwise (fun a b => b.timestamp ≤ a.timestamp) ∧
    (∀ a ∈ listAudit [AuditEntry.mk ("t") ("Owner") ("Executive Decision") none ("d")]
        none, pyTruthy none = true → some a.role = none) :=
  listing_bounds_and_order
    [Event.mk ("a") ("t") ("CRANE-01") ("Info") 0 1 ("x") none ("active") ("") none]
    [AuditEntry.mk ("t") ("Owner") ("Executive Decision") none ("d")] none none

/-- C1: for every state, telemetry payload and diagnosis carrying an urgency
score, the analyze handler creates an event with severity exactly
`urgency_score / 10`, status active, and appends exactly one audit entry
linked to the new event's id with action Ran Diagnostic Scan. -/
theorem analyze_event_severity_status_audit (st : AppState) (raw_data : String)
    (a : Analysis) (u : Int) (event_uuid now : String)
    (hu : a.urgency_score = some u) :
    AnalyzeProps st raw_data a u event_uuid now := by
  refine ⟨?_, rfl, rfl, ?_⟩
  · simp [analyze, hu]
  · simp [analyze]

/-- Witness for C1 at a concrete input: a diagnosis with urgency 7 analysed
from the initial state yields severity 7/10. -/
theorem analyze_event_severity_status_audit_witness :
    (Analysis.mk none none (some 7) none).urgency_score = some 7 ∧
    AnalyzeProps initState ("vib") (Analysis.mk none none (some 7) none) 7 ("e1") ("t1") :=
  ⟨rfl, analyze_event_severity_status_audit initState ("vib")
    (Analysis.mk none none (some 7) none) 7 ("e1") ("t1") rfl⟩

/-- C6: resolving an event id that matches no stored event succeeds and
leaves the events table untouched (the UPDATE matches zero rows). -/
theorem resolve_unknown_id_noop (st : AppState) (event_id : String)
    (notes : Option String) (now : String)
    (h : ∀ e ∈ st.events, e.id ≠ event_id) :
    (resolve_event st event_id notes now).1.events = st.events ∧
    (resolve_event st event_id notes now).2 = "success" := by
  refine ⟨?_, rfl⟩
  show st.events.map _ = st.events
  rw [List.map_congr_left (g := id) (fun e he => by simp [h e he]), List.map_id]

/-- Witness for C6 at a concrete input: one stored event, resolve called with
a different id. -/
theorem resolve_unknown_id_noop_witness :
    (∀ e ∈ (analyze initState ("vib") (Analysis.mk none none (some 7) none)
        ("e1") ("t1")).1.events, e.id ≠ "missing") ∧
    ((resolve_event (analyze initState ("vib") (Analysis.mk none none (some 7) none)
        ("e1") ("t1")).1 ("missing") none ("t2")).1.events =
      (analyze initState ("vib") (Analysis.mk none none (some 7) none)
        ("e1") ("t1")).1.events ∧
     (resolve_event (analyze initState ("vib") (Analysis.mk none none (some 7) none)
        ("e1") ("t1")).1 ("missing") none ("t2")).2 = "success") :=
  ⟨by decide, resolve_unknown_id_noop _ ("missing") none ("t2") (by decide)⟩

/-- C10: resolve and decision-recording append their audit rows
unconditionally: for every state (in particular one storing no event with the
given id) exactly one Resolved Issue entry linked to the id is appended by
resolve, and one Executive Decision entry by the decisions handler, so the
audit log can reference event ids that do not exist. -/
theorem audit_unconditional_append (st : AppState) (event_id : String)
    (notes : Option String) (role decision dec_event_id : Option String)
    (now now' : String) :
    (resolve_event st event_id notes now).1.audit_log = st.audit_log ++
      [{ timestamp := now
         role := "Technician"
         action := "Resolved Issue"
         event_id := some event_id
         details := notes.getD "Resolved via Dashboard" }] ∧
    (log_decision st role decision dec_event_id now').1.audit_log = st.audit_log ++
      [{ timestamp := now'
         role := role.getD "Owner"
         action := "Executive Decision"
         event_id := dec_event_id
         details := decision.getD "Unknown Decision" }] :=
  ⟨rfl, rfl⟩

/-- C2: whenever the engine call fails (missing key or raised error), the
gateway returns the deterministic fallback: type Warning and urgency 5 above
the 4.0 vibration threshold, else Optimal and urgency 1, with the fixed
generic prescription; the failure is absorbed, never propagated. -/
theorem analyze_telemetry_fallback (apiKey : Option String)
    (engineCall : EngineOutcome) (t : TelemetryData) (v : ℚ)
    (hfail : pyTruthy apiKey = false ∨ engineCall = .failure)
    (hv : t.vibration_mm_s = some v) :
    analyze_telemetry apiKey engineCall t = mock_response t ∧
    (v > 4 → (mock_response t).type = some ("Warning") ∧
      (mock_response t).urgency_score = some 5) ∧
    (¬ v > 4 → (mock_response t).type = some ("Optimal") ∧
      (mock_response t).urgency_score = some 1) ∧
    (mock_response t).prescription = some
      { action := "Check Sensor Calibration"
        rationale := "Simulated rationale based on heuristic."
        role_guidance :=
          { owner := "Monitor for trends."
            maintenance_lead := "Verify spare parts inventory."
            technician := "Inspect sensor mounting." } } := by
  refine ⟨?_, ?_, ?_, rfl⟩
  · rcases hfail with h | h
    · simp [analyze_telemetry, h]
    · subst h
      by_cases hk : pyTruthy apiKey = false <;> simp [analyze_telemetry, hk]
  · intro hgt
    simp [mock_response, hv, hgt]
  · intro hle
    simp [mock_response, hv, hle]

/-- Witness for C2 at a concrete input: no API key, vibration 4.5. -/
theorem analyze_telemetry_fallback_witness :
    (pyTruthy none = false ∨ EngineOutcome.failure = EngineOutcome.failure) ∧
    (TelemetryData.mk (some (9/2))).vibration_mm_s = some (9/2) ∧
    (analyze_telemetry none EngineOutcome.failure (TelemetryData.mk (some (9/2))) =
        mock_response (TelemetryData.mk (some (9/2))) ∧
      ((9:ℚ)/2 > 4 →
        (mock_response (TelemetryData.mk (some (9/2)))).type = some ("Warning") ∧
        (mock_response (TelemetryData.mk (some (9/2)))).urgency_score = some 5) ∧
      (¬ (9:ℚ)/2 > 4 →
        (mock_response (TelemetryData.mk (some (9/2)))).type = some ("Optimal") ∧
        (mock_response (TelemetryData.mk (some (9/2)))).urgency_score = some 1) ∧
      (mock_response (TelemetryData.mk (some (9/2)))).prescription = some
        { action := "Check Sensor Calibration"
          rationale := "Simulated rationale based on heuristic."
          role_guidance :=
            { owner := "Monitor for trends."
              maintenance_lead := "Verify spare parts inventory."
              technician := "Inspect sensor mounting." } }) :=
  ⟨Or.inl rfl, rfl,
    analyze_telemetry_fallback none EngineOutcome.failure
      (TelemetryData.mk (some (9/2))) (9/2) (Or.inl rfl) rfl⟩
